import Mathlib

/-!
Verification of the product-creation endpoint (`create_product` in
`create_product.py`) against its natural-language specification.

The endpoint is embedded shallowly: JSON request values become an inductive
`JVal`, Python `Decimal` string parsing becomes `parseDecimal`, and the
endpoint body becomes the pure function `App.create_product` over an explicit
database state `App.DB`.  The SQLAlchemy models and session (`Product`,
`Warehouse`, `Inventory`, `db.session`) are not part of the repository's
source; their transactional semantics (flush assigns the generated id, commit
persists both pending rows atomically or raises an integrity error on a sku
uniqueness violation, rollback discards pending rows) are modelled from the
spec.  Side effects are recorded in an explicit event trace so that
short-circuiting claims can be stated.
-/

/-- A JSON-decoded request value, viewed as the Python object it decodes to. -/
inductive JVal : Type
  | jstr (s : String)
  | jint (n : Int)
  | jbool (b : Bool)
  | jnull
deriving DecidableEq

/-- Python `str()` applied to a decoded JSON value, as used by
`Decimal(str(data[\x27price\x27]))`. -/
def pyStr : JVal → String
  | .jstr s => s
  | .jint n => toString n
  | .jbool true => "True"
  | .jbool false => "False"
  | .jnull => "None"

/-- The Python type name of a decoded JSON value, as it appears in
`AttributeError` messages. -/
def pyTypeName : JVal → String
  | .jstr _ => "str"
  | .jint _ => "int"
  | .jbool _ => "bool"
  | .jnull => "NoneType"

/-- Whitespace as recognized by Python `str.strip()` (ASCII range). -/
def pyIsSpace (c : Char) : Bool :=
  c = ' ' ∨ c = '\t' ∨ c = '\n' ∨ c = '\r' ∨ c = '\x0b' ∨ c = '\x0c'

/-- Python `s.strip()`: remove leading and trailing whitespace. -/
def pyStrip (s : String) : String :=
  ⟨(((s.data.dropWhile pyIsSpace).reverse.dropWhile pyIsSpace).reverse)⟩

/-- Python `s.upper()` (ASCII letters). -/
def pyUpper (s : String) : String :=
  ⟨s.data.map Char.toUpper⟩

/-- Python `value.strip()`: succeeds on a `str`, raises `AttributeError`
(modelled as `Except.error` carrying the exception message) otherwise. -/
def jStrip : JVal → Except String String
  | .jstr s => .ok (pyStrip s)
  | v => .error ("\x27" ++ pyTypeName v ++ "\x27 object has no attribute \x27strip\x27")

/-- Numeric value of a list of decimal digit characters, most significant
first. -/
def digitsToNat (cs : List Char) : Nat :=
  cs.foldl (fun a c => a * 10 + (c.toNat - 48)) 0

/-- A nonempty list consisting only of decimal digits. -/
def isDigits (cs : List Char) : Bool :=
  !cs.isEmpty && cs.all Char.isDigit

/-- Split a character list at the first character satisfying `sep`;
`none` when no such character occurs. -/
def splitOnce (sep : Char → Bool) : List Char → Option (List Char × List Char)
  | [] => none
  | c :: cs =>
    if sep c then some ([], cs)
    else (splitOnce sep cs).map (fun p => (c :: p.1, p.2))

/-- An exact finite decimal value `mant * 10 ^ fexp`, as held by a Python
`Decimal` (coefficient and exponent, kept unnormalized exactly as the
constructor keeps them). -/
structure DecVal where
  mant : Int
  fexp : Int
deriving DecidableEq

/-- The exact rational value of a finite decimal. -/
def DecVal.toRat (v : DecVal) : ℚ := (v.mant : ℚ) * (10 : ℚ) ^ v.fexp

/-- The value classes a Python `Decimal` can hold: a finite exact decimal,
a signed infinity, or a (quiet or signaling) NaN. -/
inductive PyDec : Type
  | fin (v : DecVal)
  | inf (neg : Bool)
  | nan
deriving DecidableEq

/-- Parse the exponent part of a decimal numeric string (after `e`/`E`):
an optional sign followed by a nonempty digit string. -/
def parseExpPart : List Char → Option Int
  | [] => none
  | c :: cs =>
    if c = '+' then (if isDigits cs then some ((digitsToNat cs : Nat) : Int) else none)
    else if c = '-' then (if isDigits cs then some (-(digitsToNat cs : Nat)) else none)
    else if isDigits (c :: cs) then some ((digitsToNat (c :: cs) : Nat) : Int) else none

/-- Parse the mantissa of a decimal numeric string: digits with an optional
decimal point, at least one digit overall.  Returns the concatenated digit
value and the number of fractional digits. -/
def parseMantissa (cs : List Char) : Option (Nat × Nat) :=
  match splitOnce (fun c => c = '.') cs with
  | none => if isDigits cs then some (digitsToNat cs, 0) else none
  | some (ip, fp) =>
    if ip.all Char.isDigit && fp.all Char.isDigit && !(ip.isEmpty && fp.isEmpty)
    then some (digitsToNat (ip ++ fp), fp.length)
    else none

/-- Parse an unsigned decimal numeric string (mantissa with optional
exponent) to its exact decimal value. -/
def parseNumeric (cs : List Char) : Option DecVal :=
  match splitOnce (fun c => c = 'e' || c = 'E') cs with
  | none =>
    (parseMantissa cs).map (fun p => ⟨(p.1 : Int), -(p.2 : Int)⟩)
  | some (man, ex) =>
    match parseMantissa man, parseExpPart ex with
    | some p, some e => some ⟨(p.1 : Int), e - (p.2 : Int)⟩
    | _, _ => none

/-- Lowercase a character list (for the case-insensitive special values
`Infinity` and `NaN`). -/
def lowerChars (cs : List Char) : List Char := cs.map Char.toLower

/-- Parse the body of a decimal string after the optional sign has been
removed: `Inf`/`Infinity`, `NaN`/`sNaN` (with optional digit payload), or a
numeric string. -/
def parseUnsigned (cs : List Char) (neg : Bool) : Option PyDec :=
  let low := lowerChars cs
  if low = "inf".data ∨ low = "infinity".data then some (.inf neg)
  else if low.take 3 = "nan".data ∧ (low.drop 3).all Char.isDigit then some .nan
  else if low.take 4 = "snan".data ∧ (low.drop 4).all Char.isDigit then some .nan
  else (parseNumeric cs).map (fun q => .fin (if neg then ⟨-q.mant, q.fexp⟩ else q))

/-- Model of Python `Decimal(s)` on a string argument: strip surrounding
whitespace, take an optional sign, then a numeric string or a special value.
`none` models the `InvalidOperation` exception. -/
def parseDecimal (s : String) : Option PyDec :=
  match (pyStrip s).data with
  | [] => none
  | c :: cs =>
    if c = '+' then parseUnsigned cs false
    else if c = '-' then parseUnsigned cs true
    else parseUnsigned (c :: cs) false

/-- Model of the Python comparison `price < 0` on a `Decimal`: ordinary
numeric comparison on finite values (a finite decimal is negative exactly
when its coefficient is) and infinities, but an ordered comparison on a NaN
raises `InvalidOperation` (modelled as `none`). -/
def pyDecLtZero : PyDec → Option Bool
  | .fin v => some (decide (v.mant < 0))
  | .inf neg => some neg
  | .nan => none

namespace App

/-- A persisted product row: generated id, stored (trimmed) name, stored
(trimmed and uppercased) sku, exact decimal price. -/
structure Product where
  id : Nat
  name : String
  sku : String
  price : PyDec
deriving DecidableEq

/-- A persisted inventory row: product id, the warehouse id value as
supplied, and the quantity value as supplied (stored verbatim). -/
structure Inventory where
  product_id : Nat
  warehouse_id : JVal
  quantity : JVal
deriving DecidableEq

/-- Modelled from the spec: the persistent store behind the SQLAlchemy
models `Product`, `Inventory`, `Warehouse` (their declarations are not part
of this source file).  `warehouses` is the set of existing warehouse primary
keys; `nextId` is the id the next flushed product receives. -/
structure DB where
  products : List Product
  inventories : List Inventory
  warehouses : List JVal
  nextId : Nat
deriving DecidableEq

/-- Observable side effects of one request, in execution order. -/
inductive Ev : Type
  | lookupSku (v : JVal)
  | lookupWarehouse (v : JVal)
  | insertProduct
  | insertInventory
  | commit
  | rollback
deriving DecidableEq

/-- The HTTP response: an error body `{"error": message}` with its status
code, or the 201 success body
`{"message": message, "product_id": product_id}`. -/
inductive Resp : Type
  | err (status : Nat) (message : String)
  | created (message : String) (product_id : Nat)
deriving DecidableEq

/-- The HTTP status code of a response (a successful creation is 201). -/
def Resp.statusOf : Resp → Nat
  | .err s _ => s
  | .created _ _ => 201

/-- Result of one request: the database afterwards, the response, and the
trace of side effects. -/
structure Outcome where
  db : DB
  resp : Resp
  events : List Ev
deriving DecidableEq

/-- `data[f]` on the decoded request object, `none` when the key is absent
(Python `f not in data`). -/
def getField (data : List (String × JVal)) (f : String) : Option JVal :=
  (data.find? (fun p => decide (p.1 = f))).map Prod.snd

/-- The endpoint's required field list, in source order. -/
def required_fields : List String :=
  ["name", "sku", "price", "warehouse_id", "initial_quantity"]

/-- `[f for f in required_fields if f not in data]`. -/
def missingOf (data : List (String × JVal)) : List String :=
  required_fields.filter (fun f => (getField data f).isNone)

/-- Modelled from the spec: `Product.query.filter_by(sku=data[\x27sku\x27]).first()`
(the `Product` model is not in this source file).  The lookup compares the
raw request value against each stored sku; a non-string value matches no
stored row. -/
def skuLookupRaw (db : DB) (v : JVal) : Option Product :=
  db.products.find? (fun p => decide (v = JVal.jstr p.sku))

/-- Modelled from the spec: `Warehouse.query.get(data[\x27warehouse_id\x27])`
(the `Warehouse` model is not in this source file): primary-key lookup. -/
def warehouseExists (db : DB) (v : JVal) : Bool :=
  db.warehouses.any (fun w => decide (w = v))

/-- The write-time sku normalization `data[\x27sku\x27].strip().upper()`. -/
def normalizeSku (s : String) : String := pyUpper (pyStrip s)

/-- Modelled from the spec: the storage engine's unique constraint on
`Product.sku`, enforced at commit time (spec section 5: the storage layer's
constraint enforcement at commit is the correctness backstop). -/
def hasSku (db : DB) (s : String) : Bool :=
  db.products.any (fun p => decide (p.sku = s))

/-- Shallow embedding of the endpoint `create_product`.  `data?` is
`request.get_json()`: `none` when the body is not a JSON object, otherwise
the decoded key-value map.  The session semantics are modelled from the
spec: `db.session.flush()` makes `nextId` the new product's id,
`db.session.commit()` persists both pending rows atomically or raises
`IntegrityError` when the sku unique constraint is violated, and
`db.session.rollback()` discards pending rows, leaving the store unchanged.
Uncaught Python exceptions (`TypeError` from `f not in None`,
`AttributeError` from `.strip()` on a non-string) land in the
`except Exception` handler, which rolls back and returns a 500. -/
def create_product (db : DB) (data? : Option (List (String × JVal))) : Outcome :=
  match data? with
  | none =>
    ⟨db, .err 500 "Internal error: argument of type \x27NoneType\x27 is not iterable",
     [.rollback]⟩
  | some data =>
    if missingOf data = [] then
      match parseDecimal (pyStr ((getField data "price").getD .jnull)) with
      | none => ⟨db, .err 400 "Invalid price format", []⟩
      | some price =>
        match pyDecLtZero price with
        | none => ⟨db, .err 400 "Invalid price format", []⟩
        | some true => ⟨db, .err 400 "Price cannot be negative", []⟩
        | some false =>
          let skuV := (getField data "sku").getD .jnull
          match skuLookupRaw db skuV with
          | some _ => ⟨db, .err 409 "SKU already exists", [.lookupSku skuV]⟩
          | none =>
            let whV := (getField data "warehouse_id").getD .jnull
            if warehouseExists db whV then
              match jStrip ((getField data "name").getD .jnull) with
              | .error m =>
                ⟨db, .err 500 ("Internal error: " ++ m),
                 [.lookupSku skuV, .lookupWarehouse whV, .rollback]⟩
              | .ok nm =>
                match jStrip skuV with
                | .error m =>
                  ⟨db, .err 500 ("Internal error: " ++ m),
                   [.lookupSku skuV, .lookupWarehouse whV, .rollback]⟩
                | .ok sk =>
                  let product : Product := ⟨db.nextId, nm, pyUpper sk, price⟩
                  let inv : Inventory :=
                    ⟨db.nextId, whV, (getField data "initial_quantity").getD .jnull⟩
                  if hasSku db product.sku then
                    ⟨db, .err 400 "Database integrity error",
                     [.lookupSku skuV, .lookupWarehouse whV,
                      .insertProduct, .insertInventory, .rollback]⟩
                  else
                    ⟨{ db with
                        products := db.products ++ [product],
                        inventories := db.inventories ++ [inv],
                        nextId := db.nextId + 1 },
                     .created "Product created successfully" db.nextId,
                     [.lookupSku skuV, .lookupWarehouse whV,
                      .insertProduct, .insertInventory, .commit]⟩
            else
              ⟨db, .err 404 "Warehouse not found",
               [.lookupSku skuV, .lookupWarehouse whV]⟩
    else
      ⟨db, .err 400 ("Missing fields: " ++ String.intercalate ", " (missingOf data)), []⟩

/-- A store holding one product whose stored sku is the normalized
`"WIDGET-1"`, plus warehouse 1. -/
def dbW : DB := ⟨[⟨1, "Widget", "WIDGET-1", .fin ⟨19, 0⟩⟩], [], [.jint 1], 2⟩

/-- An empty store with a single warehouse (id 1). -/
def dbE : DB := ⟨[], [], [.jint 1], 1⟩

/-- A request supplying every required field, with the given sku. -/
def reqSku (sku : String) : List (String × JVal) :=
  [("name", .jstr "Widget"), ("sku", .jstr sku), ("price", .jint 19),
   ("warehouse_id", .jint 1), ("initial_quantity", .jint 50)]

/-- A request supplying every required field, with the given price value. -/
def reqPrice (p : JVal) : List (String × JVal) :=
  [("name", .jstr "Widget"), ("sku", .jstr "W-100"), ("price", p),
   ("warehouse_id", .jint 1), ("initial_quantity", .jint 50)]

/-- A request supplying every required field, with the given
initial_quantity value. -/
def reqQty (q : JVal) : List (String × JVal) :=
  [("name", .jstr "Widget"), ("sku", .jstr "W-100"), ("price", .jint 19),
   ("warehouse_id", .jint 1), ("initial_quantity", q)]

/-- A request supplying every required field, with the given name value. -/
def reqName (n : JVal) : List (String × JVal) :=
  [("name", n), ("sku", .jstr "W-100"), ("price", .jint 19),
   ("warehouse_id", .jint 1), ("initial_quantity", .jint 50)]

/- ------------------------------------------------------------------ -/
/- Helper lemmas shared by the claim theorems.                         -/
/- ------------------------------------------------------------------ -/

/-- A finite decimal is a negative number exactly when its coefficient is
negative. -/
lemma DecVal.toRat_neg_iff (v : DecVal) : v.toRat < 0 ↔ v.mant < 0 := by
  rw [DecVal.toRat]
  have h10 : (0 : ℚ) < (10 : ℚ) ^ v.fexp := zpow_pos (by norm_num) _
  constructor
  · intro h
    by_contra hn
    push_neg at hn
    have hge : (0 : ℚ) ≤ (v.mant : ℚ) := by exact_mod_cast hn
    have := mul_nonneg hge h10.le
    linarith
  · intro h
    have hlt : (v.mant : ℚ) < 0 := by exact_mod_cast h
    exact mul_neg_of_neg_of_pos hlt h10

/-- A finite decimal is the number zero exactly when its coefficient is
zero. -/
lemma DecVal.toRat_eq_zero_iff (v : DecVal) : v.toRat = 0 ↔ v.mant = 0 := by
  rw [DecVal.toRat]
  have h10 : (0 : ℚ) < (10 : ℚ) ^ v.fexp := zpow_pos (by norm_num) _
  rw [mul_eq_zero]
  constructor
  · rintro (h | h)
    · exact_mod_cast h
    · exact absurd h h10.ne'
  · intro h
    exact Or.inl (by exact_mod_cast h)

/-- When all five required fields are present, the missing-field list is
empty. -/
lemma missingOf_eq_nil {data : List (String × JVal)} {a b c d e : JVal}
    (hn : getField data "name" = some a)
    (hs : getField data "sku" = some b)
    (hp : getField data "price" = some c)
    (hw : getField data "warehouse_id" = some d)
    (hq : getField data "initial_quantity" = some e) :
    missingOf data = [] := by
  simp [missingOf, required_fields, hn, hs, hp, hw, hq]

/-- Every branch of the endpoint either leaves the store unchanged or
returns the 201 creation response. -/
lemma create_product_db_cases (db : DB) (data? : Option (List (String × JVal))) :
    (create_product db data?).db = db ∨
    ∃ m p, (create_product db data?).resp = Resp.created m p := by
  rcases data? with _ | data
  · exact Or.inl rfl
  · simp only [create_product]
    repeat' first
    | exact Or.inl rfl
    | exact Or.inr ⟨_, _, rfl⟩
    | split

/-- Full reduction of the endpoint on the success path, under the exact
conditions the code tests: all fields present, price parsed and not
negative, raw sku lookup empty, warehouse present, and no stored sku equal
to the normalized request sku (so the commit-time unique constraint holds). -/
lemma create_product_success_eq (db : DB) (data : List (String × JVal))
    (n s : String) (pv wv qv : JVal) (d : PyDec)
    (hn : getField data "name" = some (.jstr n))
    (hs : getField data "sku" = some (.jstr s))
    (hp : getField data "price" = some pv)
    (hw : getField data "warehouse_id" = some wv)
    (hq : getField data "initial_quantity" = some qv)
    (hparse : parseDecimal (pyStr pv) = some d)
    (hpos : pyDecLtZero d = some false)
    (hraw : skuLookupRaw db (.jstr s) = none)
    (hcommit : hasSku db (normalizeSku s) = false)
    (hwh : warehouseExists db wv = true) :
    create_product db (some data) =
      ⟨{ db with
          products := db.products ++ [⟨db.nextId, pyStrip n, normalizeSku s, d⟩],
          inventories := db.inventories ++ [⟨db.nextId, wv, qv⟩],
          nextId := db.nextId + 1 },
       .created "Product created successfully" db.nextId,
       [.lookupSku (.jstr s), .lookupWarehouse wv,
        .insertProduct, .insertInventory, .commit]⟩ := by
  have hmiss := missingOf_eq_nil hn hs hp hw hq
  simp only [create_product, hmiss, hp, Option.getD_some, hparse, hpos, hs, hraw, hw, hwh,
    hn, jStrip, hq, normalizeSku, if_true, reduceIte]
  rw [normalizeSku] at hcommit
  rw [hcommit]
  simp

/- ------------------------------------------------------------------ -/
/- Claim theorems.                                                     -/
/- ------------------------------------------------------------------ -/

/-- C1: the claim says a request whose sku is a case/whitespace variant of a
stored normalized sku gets 409 "SKU already exists" from the pre-transaction
lookup, because that lookup queries with the trimmed, uppercased sku.  The
code queries with the raw sku: with `"WIDGET-1"` stored, the request sku
`"widget-1"` is not found by the pre-check (`skuLookupRaw … = none`), the
flow proceeds into the transaction, and the commit-time unique constraint
rejects it with 400 "Database integrity error" instead — and nothing is
persisted.  This evaluation exhibits the divergence. -/
theorem c1_sku_precheck_not_normalized :
    skuLookupRaw dbW (JVal.jstr "widget-1") = none ∧
    normalizeSku "widget-1" = "WIDGET-1" ∧
    (create_product dbW (some (reqSku "widget-1"))).resp
      = Resp.err 400 "Database integrity error" ∧
    (create_product dbW (some (reqSku "widget-1"))).resp
      ≠ Resp.err 409 "SKU already exists" ∧
    (create_product dbW (some (reqSku "widget-1"))).db = dbW := by
  decide

/-- C2: on every failure path (any non-201 response) the store is exactly
what it was before the request: no Product row and no InventoryRecord row
from the failed request survives. -/
theorem c2_rollback_on_every_failure (db : DB) (data? : Option (List (String × JVal)))
    (s : Nat) (m : String)
    (h : (create_product db data?).resp = Resp.err s m) :
    (create_product db data?).db = db := by
  rcases create_product_db_cases db data? with hdb | ⟨m', p', hc⟩
  · exact hdb
  · rw [hc] at h
    exact absurd h (by simp)

/-- Witness for C2 at a concrete failing request (duplicate normalized sku
reaching the commit-time constraint, the deepest failure path). -/
theorem c2_rollback_on_every_failure_witness :
    (create_product dbW (some (reqSku "widget-1"))).db = dbW :=
  c2_rollback_on_every_failure dbW (some (reqSku "widget-1"))
    400 "Database integrity error" (by decide)

/-- C5: the required keys are exactly name, sku, price, warehouse_id
(the spec's warehouseId) and initial_quantity (the spec's initialQuantity);
a request missing any of them gets 400 with a comma list of every missing
key, the store untouched and no lookup or insert performed. -/
theorem c5_missing_fields_listed (db : DB) (data : List (String × JVal))
    (h : missingOf data ≠ []) :
    required_fields = ["name", "sku", "price", "warehouse_id", "initial_quantity"] ∧
    create_product db (some data) =
      ⟨db, .err 400 ("Missing fields: " ++ String.intercalate ", " (missingOf data)), []⟩ := by
  refine ⟨rfl, ?_⟩
  simp only [create_product, if_neg h]

/-- Witness for C5: a request supplying only `name` is refused with the
four other keys listed, in order. -/
theorem c5_missing_fields_listed_witness :
    required_fields = ["name", "sku", "price", "warehouse_id", "initial_quantity"] ∧
    create_product dbE (some [("name", JVal.jstr "x")]) =
      ⟨dbE, .err 400 ("Missing fields: " ++
        String.intercalate ", " (missingOf [("name", JVal.jstr "x")])), []⟩ :=
  c5_missing_fields_listed dbE [("name", JVal.jstr "x")] (by decide)

/-- C3: on a request with all fields present, a parseable non-negative
price, a fresh normalized sku (the uniqueness lookup finds no existing
product — stored skus being normalized, as every row this endpoint writes
is), and an existing warehouse, exactly one Product (trimmed name, trimmed
and uppercased sku, the parsed exact-decimal price) and exactly one
InventoryRecord (the generated id, the supplied warehouse id, the raw
initial quantity) are appended, and the response is the 201 body
`{"message": "Product created successfully", "product_id": <generated id>}`. -/
theorem c3_success_persists_rows (db : DB) (data : List (String × JVal))
    (n s : String) (pv wv qv : JVal) (d : PyDec)
    (hwf : ∀ p ∈ db.products, normalizeSku p.sku = p.sku)
    (hn : getField data "name" = some (.jstr n))
    (hs : getField data "sku" = some (.jstr s))
    (hp : getField data "price" = some pv)
    (hw : getField data "warehouse_id" = some wv)
    (hq : getField data "initial_quantity" = some qv)
    (hparse : parseDecimal (pyStr pv) = some d)
    (hpos : pyDecLtZero d = some false)
    (hfresh : ∀ p ∈ db.products, p.sku ≠ normalizeSku s)
    (hwh : warehouseExists db wv = true) :
    create_product db (some data) =
      ⟨{ db with
          products := db.products ++ [⟨db.nextId, pyStrip n, normalizeSku s, d⟩],
          inventories := db.inventories ++ [⟨db.nextId, wv, qv⟩],
          nextId := db.nextId + 1 },
       .created "Product created successfully" db.nextId,
       [.lookupSku (.jstr s), .lookupWarehouse wv,
        .insertProduct, .insertInventory, .commit]⟩ := by
  have hraw : skuLookupRaw db (.jstr s) = none := by
    rw [skuLookupRaw, List.find?_eq_none]
    intro p hmem
    simp only [decide_eq_true_eq]
    intro he
    injection he with he'
    have : p.sku = normalizeSku s := by rw [he']; exact (hwf p hmem).symm
    exact hfresh p hmem this
  have hcommit : hasSku db (normalizeSku s) = false := by
    rw [hasSku, List.any_eq_false]
    intro p hmem
    simpa using hfresh p hmem
  exact create_product_success_eq db data n s pv wv qv d hn hs hp hw hq hparse hpos
    hraw hcommit hwh

/-- Witness for C3: creating `" w-100 "` in the empty store stores name
`"Widget"`, sku `"W-100"`, price 19, one inventory row with quantity 50,
and answers 201 with the generated id 1. -/
theorem c3_success_persists_rows_witness :
    create_product dbE (some (reqSku " w-100 ")) =
      ⟨{ dbE with
          products := dbE.products ++
            [⟨dbE.nextId, pyStrip "Widget", normalizeSku " w-100 ", .fin ⟨19, 0⟩⟩],
          inventories := dbE.inventories ++ [⟨dbE.nextId, .jint 1, .jint 50⟩],
          nextId := dbE.nextId + 1 },
       .created "Product created successfully" dbE.nextId,
       [.lookupSku (.jstr " w-100 "), .lookupWarehouse (.jint 1),
        .insertProduct, .insertInventory, .commit]⟩ :=
  c3_success_persists_rows dbE (reqSku " w-100 ") "Widget" " w-100 "
    (.jint 19) (.jint 1) (.jint 50) (.fin ⟨19, 0⟩)
    (by decide) (by decide) (by decide) (by decide) (by decide) (by decide)
    (by decide) (by decide) (by decide) (by decide)

/-- C4: with all fields present, an unparseable or wrong-typed price value
(anything whose string form `Decimal` rejects, including `null` and
booleans) yields 400 "Invalid price format"; a parsed negative number
yields the distinct 400 "Price cannot be negative"; and a parsed zero
passes price validation, producing neither price error. -/
theorem c4_price_validation (db : DB) (data : List (String × JVal)) (pv : JVal)
    (hm : missingOf data = [])
    (hp : getField data "price" = some pv) :
    (parseDecimal (pyStr pv) = none →
      (create_product db (some data)).resp = .err 400 "Invalid price format") ∧
    (∀ d : DecVal, parseDecimal (pyStr pv) = some (.fin d) → d.toRat < 0 →
      (create_product db (some data)).resp = .err 400 "Price cannot be negative") ∧
    (∀ d : DecVal, parseDecimal (pyStr pv) = some (.fin d) → d.toRat = 0 →
      (create_product db (some data)).resp ≠ .err 400 "Invalid price format" ∧
      (create_product db (some data)).resp ≠ .err 400 "Price cannot be negative") ∧
    parseDecimal (pyStr JVal.jnull) = none ∧
    (∀ b : Bool, parseDecimal (pyStr (JVal.jbool b)) = none) := by
  refine ⟨?_, ?_, ?_, by decide, by decide⟩
  · intro hparse
    simp only [create_product, hm, reduceIte, hp, Option.getD_some, hparse]
  · intro d hparse hneg
    rw [DecVal.toRat_neg_iff] at hneg
    simp only [create_product, hm, reduceIte, hp, Option.getD_some, hparse, pyDecLtZero,
      hneg, decide_True]
  · intro d hparse hzero
    rw [DecVal.toRat_eq_zero_iff] at hzero
    have hlt : pyDecLtZero (.fin d) = some false := by simp [pyDecLtZero, hzero]
    constructor <;>
    · intro hEq
      simp only [create_product, hm, reduceIte, hp, Option.getD_some, hparse, hlt] at hEq
      repeat' split at hEq
      all_goals simp_all

/-- Witness for C4: the price string `"abc"` is answered with 400
"Invalid price format". -/
theorem c4_price_validation_witness :
    (create_product dbE (some (reqPrice (JVal.jstr "abc")))).resp =
      .err 400 "Invalid price format" :=
  (c4_price_validation dbE (reqPrice (JVal.jstr "abc")) (JVal.jstr "abc")
    (by decide) (by decide)).1 (by decide)

/-- C6: the pipeline runs field-presence, price parsing/sign, sku
uniqueness, warehouse existence, then the transactional insert, and each
failure short-circuits: the missing-field error is returned with no lookup
or insert at all; a price failure likewise; a duplicate raw sku answers 409
after only the sku lookup; a missing warehouse answers 404 after only the
two lookups.  Nothing about later steps is assumed in any branch, so the
earlier step's error wins even when later steps would also fail. -/
theorem c6_pipeline_short_circuits (db : DB) (data : List (String × JVal)) :
    (missingOf data ≠ [] →
      create_product db (some data) =
        ⟨db, .err 400 ("Missing fields: " ++ String.intercalate ", " (missingOf data)),
         []⟩) ∧
    (∀ pv, missingOf data = [] → getField data "price" = some pv →
      parseDecimal (pyStr pv) = none →
      create_product db (some data) = ⟨db, .err 400 "Invalid price format", []⟩) ∧
    (∀ pv d, missingOf data = [] → getField data "price" = some pv →
      parseDecimal (pyStr pv) = some d → pyDecLtZero d = some true →
      create_product db (some data) = ⟨db, .err 400 "Price cannot be negative", []⟩) ∧
    (∀ pv d sv p, missingOf data = [] → getField data "price" = some pv →
      parseDecimal (pyStr pv) = some d → pyDecLtZero d = some false →
      getField data "sku" = some sv → skuLookupRaw db sv = some p →
      create_product db (some data) =
        ⟨db, .err 409 "SKU already exists", [.lookupSku sv]⟩) ∧
    (∀ pv d sv wv, missingOf data = [] → getField data "price" = some pv →
      parseDecimal (pyStr pv) = some d → pyDecLtZero d = some false →
      getField data "sku" = some sv → skuLookupRaw db sv = none →
      getField data "warehouse_id" = some wv → warehouseExists db wv = false →
      create_product db (some data) =
        ⟨db, .err 404 "Warehouse not found", [.lookupSku sv, .lookupWarehouse wv]⟩) := by
  refine ⟨?_, ?_, ?_, ?_, ?_⟩
  · intro h
    simp only [create_product, if_neg h]
  · intro pv hm hp hparse
    simp only [create_product, hm, reduceIte, hp, Option.getD_some, hparse]
  · intro pv d hm hp hparse hneg
    simp only [create_product, hm, reduceIte, hp, Option.getD_some, hparse, hneg]
  · intro pv d sv p hm hp hparse hpos hs hfound
    simp only [create_product, hm, reduceIte, hp, Option.getD_some, hparse, hpos, hs, hfound]
  · intro pv d sv wv hm hp hparse hpos hs hnone hw hwh
    simp only [create_product, hm, reduceIte, hp, Option.getD_some, hparse, hpos, hs, hnone,
      hw, hwh, Bool.false_eq_true, if_false]

/-- Witness for C6: the exact duplicate sku `"WIDGET-1"` is answered 409
after the sku lookup alone, with the store untouched. -/
theorem c6_pipeline_short_circuits_witness :
    create_product dbW (some (reqSku "WIDGET-1")) =
      ⟨dbW, .err 409 "SKU already exists", [.lookupSku (.jstr "WIDGET-1")]⟩ :=
  (c6_pipeline_short_circuits dbW (reqSku "WIDGET-1")).2.2.2.1
    (.jint 19) (.fin ⟨19, 0⟩) (.jstr "WIDGET-1") ⟨1, "Widget", "WIDGET-1", .fin ⟨19, 0⟩⟩
    (by decide) (by decide) (by decide) (by decide) (by decide) (by decide)

/-- C7: the initial quantity value is never validated: any value — negative
or not even a number — passes every check, the request succeeds, and the
value is persisted verbatim in the new inventory row. -/
theorem c7_quantity_never_validated (db : DB) (data : List (String × JVal))
    (n s : String) (pv wv qv : JVal) (d : PyDec)
    (hn : getField data "name" = some (.jstr n))
    (hs : getField data "sku" = some (.jstr s))
    (hp : getField data "price" = some pv)
    (hw : getField data "warehouse_id" = some wv)
    (hq : getField data "initial_quantity" = some qv)
    (hparse : parseDecimal (pyStr pv) = some d)
    (hpos : pyDecLtZero d = some false)
    (hraw : skuLookupRaw db (.jstr s) = none)
    (hcommit : hasSku db (normalizeSku s) = false)
    (hwh : warehouseExists db wv = true) :
    (create_product db (some data)).resp =
      .created "Product created successfully" db.nextId ∧
    (create_product db (some data)).db.inventories =
      db.inventories ++ [⟨db.nextId, wv, qv⟩] := by
  rw [create_product_success_eq db data n s pv wv qv d hn hs hp hw hq hparse hpos
    hraw hcommit hwh]
  exact ⟨rfl, rfl⟩

/-- Witness for C7: a negative quantity (-5) and a non-numeric quantity
(the string "many") are both accepted and stored verbatim. -/
theorem c7_quantity_never_validated_witness :
    ((create_product dbE (some (reqQty (.jint (-5))))).resp =
      .created "Product created successfully" dbE.nextId ∧
     (create_product dbE (some (reqQty (.jint (-5))))).db.inventories =
      dbE.inventories ++ [⟨dbE.nextId, .jint 1, .jint (-5)⟩]) ∧
    ((create_product dbE (some (reqQty (.jstr "many")))).resp =
      .created "Product created successfully" dbE.nextId ∧
     (create_product dbE (some (reqQty (.jstr "many")))).db.inventories =
      dbE.inventories ++ [⟨dbE.nextId, .jint 1, .jstr "many"⟩]) :=
  ⟨c7_quantity_never_validated dbE (reqQty (.jint (-5))) "Widget" "W-100"
      (.jint 19) (.jint 1) (.jint (-5)) (.fin ⟨19, 0⟩)
      (by decide) (by decide) (by decide) (by decide) (by decide) (by decide)
      (by decide) (by decide) (by decide) (by decide),
   c7_quantity_never_validated dbE (reqQty (.jstr "many")) "Widget" "W-100"
      (.jint 19) (.jint 1) (.jstr "many") (.fin ⟨19, 0⟩)
      (by decide) (by decide) (by decide) (by decide) (by decide) (by decide)
      (by decide) (by decide) (by decide) (by decide)⟩

/-- C8: a request whose decoded body is not a JSON object (`get_json()`
gives None, so `f not in data` raises TypeError), or whose name or sku
value is present but not a string (`.strip()` raises AttributeError), is
answered by the catch-all handler: 500 with body
`{"error": "Internal error: <message>"}` after a rollback, the store
unchanged — not a 400 validation error.  Only the price field's type errors
are caught and mapped to a validation error. -/
theorem c8_non_object_and_non_string_are_500 (db : DB) :
    (create_product db none =
      ⟨db, .err 500 "Internal error: argument of type \x27NoneType\x27 is not iterable",
       [.rollback]⟩) ∧
    (∀ data nv sv pv wv qv m d,
      getField data "name" = some nv →
      getField data "sku" = some sv →
      getField data "price" = some pv →
      getField data "warehouse_id" = some wv →
      getField data "initial_quantity" = some qv →
      parseDecimal (pyStr pv) = some d →
      pyDecLtZero d = some false →
      skuLookupRaw db sv = none →
      warehouseExists db wv = true →
      jStrip nv = .error m →
      create_product db (some data) =
        ⟨db, .err 500 ("Internal error: " ++ m),
         [.lookupSku sv, .lookupWarehouse wv, .rollback]⟩) ∧
    (∀ data n sv pv wv qv m d,
      getField data "name" = some (.jstr n) →
      getField data "sku" = some sv →
      getField data "price" = some pv →
      getField data "warehouse_id" = some wv →
      getField data "initial_quantity" = some qv →
      parseDecimal (pyStr pv) = some d →
      pyDecLtZero d = some false →
      skuLookupRaw db sv = none →
      warehouseExists db wv = true →
      jStrip sv = .error m →
      create_product db (some data) =
        ⟨db, .err 500 ("Internal error: " ++ m),
         [.lookupSku sv, .lookupWarehouse wv, .rollback]⟩) := by
  refine ⟨rfl, ?_, ?_⟩
  · intro data nv sv pv wv qv m d hn hs hp hw hq hparse hpos hraw hwh hstrip
    have hmiss := missingOf_eq_nil hn hs hp hw hq
    simp only [create_product, hmiss, reduceIte, hp, Option.getD_some, hparse, hpos, hs,
      hraw, hw, hwh, hn, hstrip]
  · intro data n sv pv wv qv m d hn hs hp hw hq hparse hpos hraw hwh hstrip
    have hmiss := missingOf_eq_nil hn hs hp hw hq
    have hjn : jStrip (JVal.jstr n) = .ok (pyStrip n) := rfl
    simp only [create_product, hmiss, reduceIte, hp, Option.getD_some, hparse, hpos, hs,
      hraw, hw, hwh, hn, hjn, hstrip]

/-- Witness for C8: a None body, a numeric name, and a numeric sku all
produce the 500 internal-error response with the store unchanged. -/
theorem c8_non_object_and_non_string_are_500_witness :
    (create_product dbE none =
      ⟨dbE, .err 500 "Internal error: argument of type \x27NoneType\x27 is not iterable",
       [.rollback]⟩) ∧
    (create_product dbE (some (reqName (.jint 7))) =
      ⟨dbE, .err 500 "Internal error: \x27int\x27 object has no attribute \x27strip\x27",
       [.lookupSku (.jstr "W-100"), .lookupWarehouse (.jint 1), .rollback]⟩) :=
  ⟨(c8_non_object_and_non_string_are_500 dbE).1,
   (c8_non_object_and_non_string_are_500 dbE).2.1 (reqName (.jint 7)) (.jint 7)
     (.jstr "W-100") (.jint 19) (.jint 1) (.jint 50)
     "\x27int\x27 object has no attribute \x27strip\x27" (.fin ⟨19, 0⟩)
     (by decide) (by decide) (by decide) (by decide) (by decide) (by decide)
     (by decide) (by decide) (by decide) rfl⟩

/-- C9: `Decimal("Infinity")` parses to positive infinity, which is not
less than zero, so the price check passes and the infinite price is
persisted; `Decimal("NaN")` also parses, but the guarded comparison
`NaN < 0` raises InvalidOperation, so the request is answered 400
"Invalid price format" — the rejection comes from the comparison, not the
parse. -/
theorem c9_infinity_accepted_nan_rejected (db : DB) (data : List (String × JVal)) :
    parseDecimal "Infinity" = some (.inf false) ∧
    pyDecLtZero (.inf false) = some false ∧
    parseDecimal "NaN" = some .nan ∧
    (∀ n s wv qv,
      getField data "name" = some (.jstr n) →
      getField data "sku" = some (.jstr s) →
      getField data "price" = some (.jstr "Infinity") →
      getField data "warehouse_id" = some wv →
      getField data "initial_quantity" = some qv →
      skuLookupRaw db (.jstr s) = none →
      hasSku db (normalizeSku s) = false →
      warehouseExists db wv = true →
      (create_product db (some data)).resp =
        .created "Product created successfully" db.nextId ∧
      (create_product db (some data)).db.products =
        db.products ++ [⟨db.nextId, pyStrip n, normalizeSku s, .inf false⟩]) ∧
    (missingOf data = [] → getField data "price" = some (.jstr "NaN") →
      (create_product db (some data)).resp = .err 400 "Invalid price format") := by
  refine ⟨by decide, by decide, by decide, ?_, ?_⟩
  · intro n s wv qv hn hs hp hw hq hraw hcommit hwh
    rw [create_product_success_eq db data n s (.jstr "Infinity") wv qv (.inf false)
      hn hs hp hw hq (by decide) (by decide) hraw hcommit hwh]
    exact ⟨rfl, rfl⟩
  · intro hm hp
    have hparse : parseDecimal (pyStr (JVal.jstr "NaN")) = some PyDec.nan := by decide
    simp only [create_product, hm, reduceIte, hp, Option.getD_some, hparse, pyDecLtZero]

/-- Witness for C9: the price string "Infinity" is accepted and stored as
positive infinity; the price string "NaN" is answered 400
"Invalid price format". -/
theorem c9_infinity_accepted_nan_rejected_witness :
    ((create_product dbE (some (reqPrice (.jstr "Infinity")))).resp =
       .created "Product created successfully" dbE.nextId ∧
     (create_product dbE (some (reqPrice (.jstr "Infinity")))).db.products =
       dbE.products ++ [⟨dbE.nextId, pyStrip "Widget", normalizeSku "W-100", .inf false⟩]) ∧
    (create_product dbE (some (reqPrice (.jstr "NaN")))).resp =
      .err 400 "Invalid price format" :=
  ⟨(c9_infinity_accepted_nan_rejected dbE (reqPrice (.jstr "Infinity"))).2.2.2.1
      "Widget" "W-100" (.jint 1) (.jint 50)
      (by decide) (by decide) (by decide) (by decide) (by decide) (by decide)
      (by decide) (by decide),
   (c9_infinity_accepted_nan_rejected dbE (reqPrice (.jstr "NaN"))).2.2.2.2
      (by decide) (by decide)⟩

/-- C10: an empty or whitespace-only name or sku passes the presence check
(the key exists) and is rejected nowhere else: when everything else is
valid and no stored sku normalizes to the empty string, the request
succeeds and the stored Product has empty name and empty sku. -/
theorem c10_empty_name_sku_accepted (db : DB) (data : List (String × JVal))
    (n s : String) (pv wv qv : JVal) (d : PyDec)
    (hn : getField data "name" = some (.jstr n)) (hnw : pyStrip n = "")
    (hs : getField data "sku" = some (.jstr s)) (hsw : pyStrip s = "")
    (hp : getField data "price" = some pv)
    (hw : getField data "warehouse_id" = some wv)
    (hq : getField data "initial_quantity" = some qv)
    (hparse : parseDecimal (pyStr pv) = some d)
    (hpos : pyDecLtZero d = some false)
    (hwh : warehouseExists db wv = true)
    (hno : ∀ p ∈ db.products, normalizeSku p.sku ≠ "") :
    (create_product db (some data)).resp =
      .created "Product created successfully" db.nextId ∧
    (create_product db (some data)).db.products =
      db.products ++ [⟨db.nextId, "", "", d⟩] := by
  have hns : normalizeSku s = "" := by rw [normalizeSku, hsw]; rfl
  have hraw : skuLookupRaw db (.jstr s) = none := by
    rw [skuLookupRaw, List.find?_eq_none]
    intro p hmem
    simp only [decide_eq_true_eq]
    intro he
    injection he with he'
    exact hno p hmem (by rw [← he']; exact hns)
  have hcommit : hasSku db (normalizeSku s) = false := by
    rw [hns, hasSku, List.any_eq_false]
    intro p hmem
    simp only [decide_eq_true_eq]
    intro he
    exact hno p hmem (by rw [he]; rfl)
  rw [create_product_success_eq db data n s pv wv qv d hn hs hp hw hq hparse hpos
    hraw hcommit hwh]
  rw [hnw, hns]
  exact ⟨rfl, rfl⟩

/-- Witness for C10: whitespace-only name and sku are accepted; the stored
product row has empty name and sku. -/
theorem c10_empty_name_sku_accepted_witness :
    (create_product dbE
       (some [("name", JVal.jstr "   "), ("sku", JVal.jstr " "), ("price", JVal.jint 19),
              ("warehouse_id", JVal.jint 1), ("initial_quantity", JVal.jint 50)])).resp =
      .created "Product created successfully" dbE.nextId ∧
    (create_product dbE
       (some [("name", JVal.jstr "   "), ("sku", JVal.jstr " "), ("price", JVal.jint 19),
              ("warehouse_id", JVal.jint 1), ("initial_quantity", JVal.jint 50)])).db.products =
      dbE.products ++ [⟨dbE.nextId, "", "", .fin ⟨19, 0⟩⟩] :=
  c10_empty_name_sku_accepted dbE
    [("name", JVal.jstr "   "), ("sku", JVal.jstr " "), ("price", JVal.jint 19),
     ("warehouse_id", JVal.jint 1), ("initial_quantity", JVal.jint 50)]
    "   " " " (.jint 19) (.jint 1) (.jint 50) (.fin ⟨19, 0⟩)
    (by decide) (by decide) (by decide) (by decide) (by decide) (by decide)
    (by decide) (by decide) (by decide) (by decide) (by decide)

end App
